import Mathlib

/-!
Verification of the custom-selector resolution engine and HTTP handlers of the
`cingoz-playwright-browser-controller` server (`src/app.js`), as a shallow
embedding in Lean 4.

Modelling conventions:
* A parsed attribute mapping (a JS object with string keys and string values)
  is a `List (String × String)` with distinct keys maintained by `setAttr`
  (assignment overwrites in place, like a JS object).
* JS truthiness of a string field (`if (obj.k)`) is `getT`: the key is present
  and its value is nonempty.
* A Playwright locator is the abstract syntax tree `Loc` of the locator
  expressions the code builds (`page.locator(css)`, `.filter({hasText})`,
  `getByRole`, `getByLabel`, `getByText`, xpath).  The live DOM is abstracted
  by a counting oracle `count : Loc → Nat` (the result of `locator.count()`).
* Thrown JS errors become `Except` / explicit outcome constructors; the three
  resolution errors of `buildPlaywrightLocator` get the names the spec uses.
* `process.exit(1)` is the explicit outcome `RestartOutcome.exited 1`.
-/

/-- JS `String.prototype.split(sep)` for a one-character separator, on the
character list of the string.  `"".split(s) = [""]`, `";".split(";") = ["",""]`. -/
def splitChar (sep : Char) : List Char → List (List Char)
  | [] => [[]]
  | c :: cs =>
    let r := splitChar sep cs
    if c = sep then [] :: r
    else
      match r with
      | [] => [[c]]
      | h :: t => (c :: h) :: t

/-- JS `String.prototype.trim()` on a character list. -/
def trimChars (cs : List Char) : List Char :=
  ((cs.dropWhile Char.isWhitespace).reverse.dropWhile Char.isWhitespace).reverse

/-- Split a character list at the first occurrence of `sep`: the characters
before it and the characters after it (`indexOf` + the two `substring`s in
the source).  `none` when `sep` does not occur. -/
def splitFirst (sep : Char) : List Char → Option (List Char × List Char)
  | [] => none
  | c :: cs =>
    if c = sep then some ([], cs)
    else
      match splitFirst sep cs with
      | some (k, v) => some (c :: k, v)
      | none => none

instance {ε α : Type} [DecidableEq ε] [DecidableEq α] :
    DecidableEq (Except ε α) := fun x y =>
  match x, y with
  | Except.ok a, Except.ok b =>
    if h : a = b then isTrue (by rw [h]) else isFalse (by simp [h])
  | Except.error a, Except.error b =>
    if h : a = b then isTrue (by rw [h]) else isFalse (by simp [h])
  | Except.ok _, Except.error _ => isFalse (by simp)
  | Except.error _, Except.ok _ => isFalse (by simp)

/-- Attribute mappings: JS objects of string keys/values, insertion order kept. -/
abbrev Attrs := List (String × String)

/-- Raw field access `obj[k]` on a JS object. -/
def getAttr (m : Attrs) (k : String) : Option String :=
  match m.find? (fun p => p.1 = k) with
  | some p => some p.2
  | none => none

/-- Truthy field access: `if (obj.k)` in JS is false for a missing key and for
the empty string. -/
def getT (m : Attrs) (k : String) : Option String :=
  match getAttr m k with
  | some v => if v = "" then none else some v
  | none => none

/-- JS assignment `obj[k] = v`: overwrite in place if the key exists, else append. -/
def setAttr (m : Attrs) (k v : String) : Attrs :=
  if (m.find? (fun p => p.1 = k)).isSome then
    m.map (fun p => if p.1 = k then (k, v) else p)
  else m ++ [(k, v)]

/-- One `key=value` segment: split at the first `=`; `firstEqualSign > 0`
in the source means the prefix before the first `=` must be nonempty. -/
def splitKeyValue (part : List Char) : Option (String × String) :=
  match splitFirst '=' part with
  | some (k, v) =>
    if k = [] then none
    else some (String.mk (trimChars k), String.mk (trimChars v))
  | none => none

/-- Fold one segment into the mapping (segments without a usable `=` are ignored). -/
def addPart (m : Attrs) (part : List Char) : Attrs :=
  match splitKeyValue part with
  | some (k, v) => setAttr m k v
  | none => m

/-- `parseCustomSelector` from src/app.js: split on `;`, trim, drop empties;
a first segment without `=` is stored under the key `tagFromSelector`;
remaining segments are `key=value` pairs split at the first `=`. -/
def parseCustomSelector (s : String) : Attrs :=
  if s = "" then []
  else
    let parts := ((splitChar ';' s.toList).map trimChars).filter (fun p => p ≠ [])
    match parts with
    | [] => []
    | p0 :: rest =>
      if ¬ p0.contains '=' then
        rest.foldl addPart (setAttr [] "tagFromSelector" (String.mk p0))
      else
        parts.foldl addPart []

/-- Abstract syntax of the Playwright locators the code constructs. -/
inductive Loc where
  | page : Loc
  | css (base : Loc) (sel : String) : Loc
  | filterHasText (base : Loc) (txt : String) : Loc
  | byRole (base : Loc) (role : String) (nameOpt : Option String) : Loc
  | byLabel (base : Loc) (lbl : String) : Loc
  | byText (base : Loc) (txt : String) : Loc
  | xpath (base : Loc) (xp : String) : Loc
deriving DecidableEq, Repr

/-- The three failure modes of `buildPlaywrightLocator`. -/
inductive LocErr where
  | AnchorNotFound (cid : String) : LocErr
  | UnderspecifiedWithinAnchor : LocErr
  | NoStrategy : LocErr
deriving DecidableEq, Repr

/-- The anchor locator `page.locator('#' + closestId)`. -/
def anchorLoc (cid : String) : Loc := Loc.css Loc.page ("#" ++ cid)

/-- The CSS descriptor built by the last-resort rule (src/app.js lines
116-126): start from the effective tag unless it is `*` and name/classes
exist, append a `[name="..."]` constraint, append one `.cls` per nonempty
comma-separated class. -/
def cssDescriptor (tag : String) (nameAttr classes : Option String) : String :=
  let css0 := if tag = "*" ∧ (nameAttr.isSome ∨ classes.isSome) then "" else tag
  let css1 := css0 ++ (match nameAttr with
    | some n => "[name=\"" ++ n ++ "\"]"
    | none => "")
  let clsList := match classes with
    | some c =>
      (((splitChar ',' c.toList).map trimChars).filter (fun x => x ≠ [])).map String.mk
    | none => []
  clsList.foldl (fun s cls => s ++ "." ++ cls) css1

/-- The last-resort CSS rule (src/app.js lines 116-132), including its entry
guard: fires only when the effective tag is not `*` or `name`/`classes` are
truthy; emits `base.locator(descriptor)` for a meaningful descriptor,
`base.locator('*')` for a bare-wildcard descriptor under an active anchor,
and nothing otherwise. -/
def cssFallbackRule (base : Loc) (anchored : Bool) (tag : String)
    (nameAttr classes : Option String) : Option Loc :=
  if tag ≠ "*" ∨ nameAttr.isSome ∨ classes.isSome then
    let d := cssDescriptor tag nameAttr classes
    if d ≠ "" ∧ d ≠ "*" then some (Loc.css base d)
    else if d = "*" ∧ anchored then some (Loc.css base "*")
    else none
  else none

/-- The ordered priority chain of `buildPlaywrightLocator` (src/app.js lines
76-132): id, data-testid, data-cy, data-qa, role (with text/aria-label as
accessible name), aria-label, text (with the tag-scoped attempt and the
`getByText` fallback when the tag-scoped count is zero), then the CSS
last-resort rule.  `none` means no rule produced a strategy. -/
def ruleStrategy (count : Loc → Nat) (base : Loc) (anchored : Bool) (tag : String)
    (idA dtestid dcy dqa roleA textA alabel nameAttr classes : Option String) :
    Option Loc :=
  match idA with
  | some i => some (Loc.css base ("#" ++ i))
  | none =>
  match dtestid with
  | some v => some (Loc.css base (tag ++ "[data-testid=\"" ++ v ++ "\"]"))
  | none =>
  match dcy with
  | some v => some (Loc.css base (tag ++ "[data-cy=\"" ++ v ++ "\"]"))
  | none =>
  match dqa with
  | some v => some (Loc.css base (tag ++ "[data-qa=\"" ++ v ++ "\"]"))
  | none =>
  match roleA with
  | some r => some (Loc.byRole base r (textA <|> alabel))
  | none =>
  match alabel with
  | some l => some (Loc.byLabel base l)
  | none =>
  match textA with
  | some t =>
    if tag ≠ "*" then
      let specific := Loc.filterHasText (Loc.css base tag) t
      if count specific > 0 then some specific
      else some (Loc.byText base t)
    else some (Loc.byText base t)
  | none => cssFallbackRule base anchored tag nameAttr classes

/-- Effective tag (src/app.js line 65):
`parsedAttributes.tagFromSelector || originalTagNameFromBody || '*'`. -/
def effTag (m : Attrs) (bodyTag : Option String) : String :=
  match getT m "tagFromSelector" with
  | some t => t
  | none =>
    match bodyTag with
    | some t => if t = "" then "*" else t
    | none => "*"

/-- The keys of the mapping other than `closestId` and `tagFromSelector`
(src/app.js line 137). -/
def keysExceptAnchor (m : Attrs) : List String :=
  (m.map Prod.fst).filter (fun k => ¬ (k = "closestId" ∨ k = "tagFromSelector"))

/-- The scope of the resolution: the anchor when `closestId` is truthy, the
page otherwise. -/
def scopeLoc (m : Attrs) : Loc :=
  match getT m "closestId" with
  | some cid => anchorLoc cid
  | none => Loc.page

/-- `buildPlaywrightLocator` from src/app.js: establish the `closestId` scope
(failing with `AnchorNotFound` on a zero count), run the priority chain, and
when no rule produced a strategy fail with `UnderspecifiedWithinAnchor` when
the scope is anchored and only `closestId`/`tagFromSelector` keys exist,
otherwise with `NoStrategy`. -/
def buildPlaywrightLocator (count : Loc → Nat) (m : Attrs)
    (bodyTag : Option String) : Except LocErr Loc :=
  let tag := effTag m bodyTag
  let run := fun (base : Loc) (anchored : Bool) =>
    ruleStrategy count base anchored tag (getT m "id") (getT m "data-testid")
      (getT m "data-cy") (getT m "data-qa") (getT m "role") (getT m "text")
      (getT m "aria-label") (getT m "name") (getT m "classes")
  match getT m "closestId" with
  | some cid =>
    if count (anchorLoc cid) = 0 then Except.error (LocErr.AnchorNotFound cid)
    else
      match run (anchorLoc cid) true with
      | some l => Except.ok l
      | none =>
        if keysExceptAnchor m = [] then Except.error LocErr.UnderspecifiedWithinAnchor
        else Except.error LocErr.NoStrategy
  | none =>
    match run Loc.page false with
    | some l => Except.ok l
    | none => Except.error LocErr.NoStrategy

/-- Trace events of `performPreClickWaits`: the bounded network-idle wait
(recording whether it errored or timed out) and the unconditional settle
delay, with their millisecond bounds from the source. -/
inductive WaitEvent where
  | networkIdleWait (timeoutMs : Nat) (errored : Bool) : WaitEvent
  | settleDelay (ms : Nat) : WaitEvent
deriving DecidableEq, Repr

/-- `performPreClickWaits` from src/app.js lines 18-32: throw when the page
is absent; otherwise attempt `waitForLoadState('networkidle')` with a 30000 ms
timeout, swallowing any error, then unconditionally `waitForTimeout(5000)`.
The result is the list of waits performed, in order; `Except.error` is the
thrown JS error. -/
def performPreClickWaits (pagePresent : Bool) (netIdleErrors : Bool) :
    Except String (List WaitEvent) :=
  if pagePresent = false then
    Except.error "Playwright page is not initialized."
  else
    Except.ok [WaitEvent.networkIdleWait 30000 netIdleErrors,
               WaitEvent.settleDelay 5000]

/-- Outcome of `locator.first().click({timeout: 15000})` on a given locator. -/
inductive ClickRes where
  | ok : ClickRes
  | timeout : ClickRes
  | err : ClickRes
deriving DecidableEq, Repr

/-- The page-side environment a click handler runs against: whether the global
`page` is initialized, the `count()` oracle, and the click outcome per locator. -/
structure Env where
  pageReady : Bool
  count : Loc → Nat
  clickResult : Loc → ClickRes

/-- HTTP status of the click attempt on a resolved locator: 200 on success,
408 for a TimeoutError, 500 for any other click error. -/
def clickStatus (env : Env) (l : Loc) : Nat :=
  match env.clickResult l with
  | ClickRes.ok => 200
  | ClickRes.timeout => 408
  | ClickRes.err => 500

/-- The `POST /click/custom` handler (src/app.js lines 256-298), returning the
HTTP status it responds with.  `customSelector = none` models a missing or
non-string body field.  Errors thrown by `buildPlaywrightLocator` are plain
`Error`s, not `TimeoutError`s, so the catch block maps them to 500. -/
def clickCustomHandler (env : Env) (netIdleErrors : Bool)
    (customSelector tagName : Option String) : Nat :=
  if env.pageReady = false then 500
  else
    match customSelector with
    | none => 400
    | some cs =>
      if cs = "" then 400
      else
        match performPreClickWaits env.pageReady netIdleErrors with
        | Except.error _ => 500
        | Except.ok _ =>
          match buildPlaywrightLocator env.count (parseCustomSelector cs) tagName with
          | Except.error _ => 500
          | Except.ok loc =>
            if env.count loc = 0 then 404
            else clickStatus env loc

/-- The XPath the `/click/text` handler retries with for an empty
`textContent` and a present `tagName`. -/
def emptyTextXPath (tag : String) : String :=
  "//" ++ tag ++ "[normalize-space(.)=\"\"]"

/-- The `POST /click/text` handler (src/app.js lines 218-253), returning the
HTTP status it responds with.  `textContent = none` models a missing or
non-string field (any string, including the empty one, is accepted).
`tagName` is consulted through JS truthiness, so an empty string counts as
absent. -/
def clickTextHandler (env : Env) (netIdleErrors : Bool)
    (textContent tagName : Option String) : Nat :=
  if env.pageReady = false then 500
  else
    match textContent with
    | none => 400
    | some txt =>
      match performPreClickWaits env.pageReady netIdleErrors with
      | Except.error _ => 500
      | Except.ok _ =>
        let tagOpt : Option String :=
          match tagName with
          | some t => if t = "" then none else some t
          | none => none
        let loc0 : Loc :=
          match tagOpt with
          | some t => Loc.filterHasText (Loc.css Loc.page t) txt
          | none => Loc.byText Loc.page txt
        if env.count loc0 ≠ 0 then clickStatus env loc0
        else
          match tagOpt with
          | some t =>
            if txt = "" then
              let loc1 := Loc.xpath Loc.page (emptyTextXPath t)
              if env.count loc1 = 0 then 404 else clickStatus env loc1
            else 404
          | none => 404

/-- The browser/context/page triple of global session handles (`true` = the
handle is set, `false` = it is null). -/
structure Session where
  browser : Bool
  context : Bool
  page : Bool
deriving DecidableEq, Repr

/-- Result of `initializePlaywright`: a fresh session, or process termination. -/
inductive InitResult where
  | exited (code : Nat) : InitResult
  | ok (s : Session) : InitResult
deriving DecidableEq, Repr

/-- `initializePlaywright` from src/app.js lines 349-361: launch the browser
and set all three globals; on any failure the catch block calls
`process.exit(1)` — it never throws to its caller. -/
def initializePlaywright (launchFails : Bool) : InitResult :=
  if launchFails then InitResult.exited 1
  else InitResult.ok ⟨true, true, true⟩

/-- Outcome of `POST /restart-browser`: an HTTP response together with the
resulting global session state, or process termination. -/
inductive RestartOutcome where
  | responded (status : Nat) (s : Session) : RestartOutcome
  | exited (code : Nat) : RestartOutcome
deriving DecidableEq, Repr

/-- Failure modes available to a restart: `browser.close()` throwing, and the
relaunch inside `initializePlaywright` failing. -/
structure RestartEnv where
  closeFails : Bool
  launchFails : Bool
deriving DecidableEq, Repr

/-- The `POST /restart-browser` handler (src/app.js lines 328-345): when a
browser handle exists, close it (a throwing `close()` reaches the catch block
before the globals are nulled, so the old state is kept and 500 is returned),
null the globals, then call `initializePlaywright`, whose failure exits the
process and whose success yields a 200 with the fresh session. -/
def restartBrowserHandler (env : RestartEnv) (s : Session) : RestartOutcome :=
  if s.browser then
    if env.closeFails then RestartOutcome.responded 500 s
    else
      match initializePlaywright env.launchFails with
      | InitResult.exited c => RestartOutcome.exited c
      | InitResult.ok s2 => RestartOutcome.responded 200 s2
  else
    match initializePlaywright env.launchFails with
    | InitResult.exited c => RestartOutcome.exited c
    | InitResult.ok s2 => RestartOutcome.responded 200 s2

/-- The attribute keys the resolution engine consults (besides the
`tagFromSelector` tag hint): the recognized set named by the spec. -/
def recognizedKeys : List String :=
  ["closestId", "id", "data-testid", "data-cy", "data-qa", "role", "text",
   "aria-label", "name", "classes"]

example : parseCustomSelector "div;id=foo;classes=a, b" =
    [("tagFromSelector", "div"), ("id", "foo"), ("classes", "a, b")] := by decide

example : parseCustomSelector "a=b=c" = [("a", "b=c")] := by decide

example : buildPlaywrightLocator (fun _ => 1) [("closestId", "x")] none =
    Except.error LocErr.UnderspecifiedWithinAnchor := by decide

example : buildPlaywrightLocator (fun _ => 1) [] none =
    Except.error LocErr.NoStrategy := by decide

/-- C9: Pre-action stabilization never fails its caller except when the page
handle is absent (it then throws the page-not-initialized error); any error or
timeout of the bounded 30000 ms network-idle wait is swallowed, and in every
case — whether or not that wait errored — the unconditional 5000 ms settle
delay is still performed before the call returns, with no error propagated. -/
theorem performPreClickWaits_spec : ∀ e : Bool,
    performPreClickWaits true e =
      Except.ok [WaitEvent.networkIdleWait 30000 e, WaitEvent.settleDelay 5000] ∧
    performPreClickWaits false e =
      Except.error "Playwright page is not initialized." := by
  intro e
  cases e <;> exact ⟨rfl, rfl⟩

/-- C10: for `POST /click/text` with empty `textContent` and a (truthy)
`tagName`, a zero count on the tag-with-hasText lookup does not immediately
yield 404: the handler retries with the XPath
`//tagName[normalize-space(.)=""]`, answers 404 exactly when that retry also
counts zero, and otherwise proceeds to click the retry locator (status 200,
408 or 500 — never 404). -/
theorem clickText_emptyText_retry (env : Env) (nie : Bool) (t : String)
    (hpage : env.pageReady = true) (ht : t ≠ "")
    (h0 : env.count (Loc.filterHasText (Loc.css Loc.page t) "") = 0) :
    (env.count (Loc.xpath Loc.page (emptyTextXPath t)) = 0 →
      clickTextHandler env nie (some "") (some t) = 404) ∧
    (env.count (Loc.xpath Loc.page (emptyTextXPath t)) ≠ 0 →
      clickTextHandler env nie (some "") (some t) =
        clickStatus env (Loc.xpath Loc.page (emptyTextXPath t)) ∧
      clickTextHandler env nie (some "") (some t) ≠ 404) := by
  constructor
  · intro h1
    simp [clickTextHandler, hpage, ht, performPreClickWaits, h0, h1]
  · intro h1
    constructor
    · simp [clickTextHandler, hpage, ht, performPreClickWaits, h0, h1]
    · simp [clickTextHandler, hpage, ht, performPreClickWaits, h0, h1, clickStatus]
      cases h : env.clickResult (Loc.xpath Loc.page (emptyTextXPath t)) <;> simp [h]

/-- C10 witness: a concrete environment where the tag-scoped empty-text count
is zero and the XPath retry also counts zero, so the handler answers 404. -/
theorem clickText_emptyText_retry_witness :
    clickTextHandler ⟨true, fun _ => 0, fun _ => ClickRes.ok⟩ false
      (some "") (some "div") = 404 :=
  (clickText_emptyText_retry ⟨true, fun _ => 0, fun _ => ClickRes.ok⟩ false "div"
    rfl (by decide) rfl).1 rfl

/-- C2 counterexample: a restart whose teardown succeeds but whose relaunch
fails terminates the process with exit code 1 — it does not respond 500.  The
claim that a failed restart never terminates the process is therefore false. -/
theorem restart_relaunch_failure_exits :
    restartBrowserHandler ⟨false, true⟩ ⟨true, true, true⟩ =
      RestartOutcome.exited 1 := by decide

/-- C2 amended: a teardown failure (`browser.close()` throwing) during restart
is the only restart failure that yields a 500, and it leaves the prior global
handles untouched (not torn down); a relaunch failure during restart instead
terminates the process with exit code 1 through `initializePlaywright`'s fatal
handler — the same path as a startup failure — so restart is not exempt from
process termination. -/
theorem restart_failure_modes :
    (∀ (env : RestartEnv) (s : Session), s.browser = true → env.closeFails = true →
      restartBrowserHandler env s = RestartOutcome.responded 500 s) ∧
    (∀ (env : RestartEnv) (s : Session),
      restartBrowserHandler env s = RestartOutcome.exited 1 ↔
        env.launchFails = true ∧ ¬ (s.browser = true ∧ env.closeFails = true)) := by
  constructor
  · intro env s hb hc
    simp [restartBrowserHandler, hb, hc]
  · intro env s
    cases env with
    | mk cf lf =>
      cases s with
      | mk b c p =>
        cases b <;> cases cf <;> cases lf <;>
          simp [restartBrowserHandler, initializePlaywright]

/-- C2 amended witness: at a concrete state with a live browser and a failing
close, the handler responds 500 with the state unchanged; and the
exit-characterization holds at a concrete failing relaunch. -/
theorem restart_failure_modes_witness :
    restartBrowserHandler ⟨true, false⟩ ⟨true, true, true⟩ =
      RestartOutcome.responded 500 ⟨true, true, true⟩ ∧
    (restartBrowserHandler ⟨false, true⟩ ⟨false, true, true⟩ =
      RestartOutcome.exited 1 ↔ True) :=
  ⟨restart_failure_modes.1 ⟨true, false⟩ ⟨true, true, true⟩ rfl rfl,
   by
    have h := (restart_failure_modes.2 ⟨false, true⟩ ⟨false, true, true⟩)
    simp only [h]
    decide⟩

/-- C1 counterexample: for each of the three resolution failures —
`AnchorNotFound` (anchor id with zero matches), `NoStrategy` (no rule
matched), `UnderspecifiedWithinAnchor` (only an anchor given) — the
`POST /click/custom` handler responds 500, not the 400 the claim states. -/
theorem clickCustom_resolution_error_500_counterexample :
    buildPlaywrightLocator (fun _ => 0) (parseCustomSelector "closestId=missing")
      none = Except.error (LocErr.AnchorNotFound "missing") ∧
    clickCustomHandler ⟨true, fun _ => 0, fun _ => ClickRes.ok⟩ false
      (some "closestId=missing") none = 500 ∧
    buildPlaywrightLocator (fun _ => 1) (parseCustomSelector "foo=bar")
      none = Except.error LocErr.NoStrategy ∧
    clickCustomHandler ⟨true, fun _ => 1, fun _ => ClickRes.ok⟩ false
      (some "foo=bar") none = 500 ∧
    buildPlaywrightLocator (fun _ => 1) (parseCustomSelector "closestId=a")
      none = Except.error LocErr.UnderspecifiedWithinAnchor ∧
    clickCustomHandler ⟨true, fun _ => 1, fun _ => ClickRes.ok⟩ false
      (some "closestId=a") none = 500 := by
  refine ⟨by decide, by decide, by decide, by decide, by decide, by decide⟩

/-- C1 amended: every `POST /click/custom` request whose custom-selector
resolution fails (with any of `AnchorNotFound`, `NoStrategy`,
`UnderspecifiedWithinAnchor`) is answered with HTTP status 500: the builder
throws a plain `Error`, which the handler's catch block — after the
`TimeoutError` test fails — maps to 500, never 400. -/
theorem clickCustom_resolution_error_500 (env : Env) (nie : Bool) (cs : String)
    (tagName : Option String) (e : LocErr)
    (hpage : env.pageReady = true) (hcs : cs ≠ "")
    (hbuild : buildPlaywrightLocator env.count (parseCustomSelector cs) tagName =
      Except.error e) :
    clickCustomHandler env nie (some cs) tagName = 500 := by
  simp [clickCustomHandler, hpage, hcs, performPreClickWaits, hbuild]

/-- C1 amended witness: the concrete `AnchorNotFound` request from the
counterexample is answered 500 via the amended theorem. -/
theorem clickCustom_resolution_error_500_witness :
    clickCustomHandler ⟨true, fun _ => 0, fun _ => ClickRes.ok⟩ false
      (some "closestId=missing") none = 500 :=
  clickCustom_resolution_error_500 ⟨true, fun _ => 0, fun _ => ClickRes.ok⟩ false
    "closestId=missing" none (LocErr.AnchorNotFound "missing") rfl (by decide)
    (by decide)

/-- C4: whenever `closestId` is truthy in the parsed mapping and the anchor
lookup over the whole document counts zero, resolution fails with
`AnchorNotFound` for that id — for every mapping, i.e. regardless of whatever
other attributes (`id`, `data-testid`, `data-cy`, `data-qa`, `role`, `text`,
`aria-label`, `name`, `classes`) are present, none of which is consulted. -/
theorem anchor_not_found_first (count : Loc → Nat) (m : Attrs)
    (bodyTag : Option String) (cid : String)
    (hcid : getT m "closestId" = some cid)
    (hzero : count (anchorLoc cid) = 0) :
    buildPlaywrightLocator count m bodyTag =
      Except.error (LocErr.AnchorNotFound cid) := by
  simp [buildPlaywrightLocator, hcid, hzero]

/-- C4 witness: a mapping carrying a missing anchor together with an `id`
attribute still fails with `AnchorNotFound` when the anchor counts zero. -/
theorem anchor_not_found_first_witness :
    buildPlaywrightLocator (fun _ => 0) [("closestId", "x"), ("id", "y")] none =
      Except.error (LocErr.AnchorNotFound "x") :=
  anchor_not_found_first (fun _ => 0) [("closestId", "x"), ("id", "y")] none "x"
    (by decide) rfl

/-- C7: the priority chain short-circuits — whenever both `id` and
`data-testid` are truthy (and the anchor, when requested, exists), resolution
yields the id-based strategy `scope.locator('#' + id)`, which ignores the
effective tag; the data-testid strategy is never built. -/
theorem id_beats_data_testid (count : Loc → Nat) (m : Attrs)
    (bodyTag : Option String) (i v : String)
    (hid : getT m "id" = some i)
    (htid : getT m "data-testid" = some v)
    (hanchor : ∀ cid, getT m "closestId" = some cid → count (anchorLoc cid) ≠ 0) :
    buildPlaywrightLocator count m bodyTag =
      Except.ok (Loc.css (scopeLoc m) ("#" ++ i)) := by
  cases hc : getT m "closestId" with
  | none => simp [buildPlaywrightLocator, scopeLoc, hc, hid, ruleStrategy]
  | some cid =>
    have hnz := hanchor cid hc
    simp [buildPlaywrightLocator, scopeLoc, hc, hid, hnz, ruleStrategy]

/-- C7 witness: with both `id` and `data-testid` present under an existing
anchor, the id strategy inside the anchor scope is produced. -/
theorem id_beats_data_testid_witness :
    buildPlaywrightLocator (fun _ => 1)
      [("closestId", "c"), ("id", "a"), ("data-testid", "b")] none =
      Except.ok (Loc.css (anchorLoc "c") "#a") :=
  id_beats_data_testid (fun _ => 1)
    [("closestId", "c"), ("id", "a"), ("data-testid", "b")] none "a" "b"
    (by decide) (by decide)
    (by
      intro cid hcid
      have h2 : getT [("closestId", "c"), ("id", "a"), ("data-testid", "b")]
          "closestId" = some "c" := by decide
      rw [h2] at hcid
      injection hcid with h3
      subst h3
      decide)

/-- C5: when no priority rule produces a strategy (and the anchor, when
requested, exists), resolution fails with `UnderspecifiedWithinAnchor`
exactly when `closestId` is truthy and the only keys of the mapping are
`closestId` and/or the inert `tagFromSelector` hint, and with `NoStrategy`
otherwise; in particular `closestId=x` alone with an existing anchor yields
`UnderspecifiedWithinAnchor` while the empty mapping yields `NoStrategy`. -/
theorem no_strategy_vs_underspecified :
    (∀ (count : Loc → Nat) (m : Attrs) (bodyTag : Option String),
      (∀ cid, getT m "closestId" = some cid → count (anchorLoc cid) ≠ 0) →
      ruleStrategy count (scopeLoc m) (getT m "closestId").isSome
          (effTag m bodyTag) (getT m "id") (getT m "data-testid")
          (getT m "data-cy") (getT m "data-qa") (getT m "role") (getT m "text")
          (getT m "aria-label") (getT m "name") (getT m "classes") = none →
      buildPlaywrightLocator count m bodyTag =
        Except.error (if (getT m "closestId").isSome ∧ keysExceptAnchor m = []
          then LocErr.UnderspecifiedWithinAnchor else LocErr.NoStrategy)) ∧
    buildPlaywrightLocator (fun _ => 1) [("closestId", "x")] none =
      Except.error LocErr.UnderspecifiedWithinAnchor ∧
    buildPlaywrightLocator (fun _ => 1) [] none =
      Except.error LocErr.NoStrategy := by
  refine ⟨?_, by decide, by decide⟩
  intro count m bodyTag hanchor hnone
  cases hc : getT m "closestId" with
  | none =>
    have e1 : scopeLoc m = Loc.page := by simp [scopeLoc, hc]
    have e2 : (getT m "closestId").isSome = false := by simp [hc]
    rw [e1, e2] at hnone
    simp [buildPlaywrightLocator, hc, hnone]
  | some cid =>
    have hnz := hanchor cid hc
    have e1 : scopeLoc m = anchorLoc cid := by simp [scopeLoc, hc]
    have e2 : (getT m "closestId").isSome = true := by simp [hc]
    rw [e1, e2] at hnone
    by_cases hk : keysExceptAnchor m = [] <;>
      simp [buildPlaywrightLocator, hc, hnz, hnone, hk]

/-- C5 witness: a mapping with an existing anchor and only an unrecognized
extra key matches no rule and falls into the `NoStrategy` branch of the
discrimination, through the general statement. -/
theorem no_strategy_vs_underspecified_witness :
    buildPlaywrightLocator (fun _ => 1) [("closestId", "x"), ("foo", "y")] none =
      Except.error
        (if (getT [("closestId", "x"), ("foo", "y")] "closestId").isSome ∧
            keysExceptAnchor [("closestId", "x"), ("foo", "y")] = []
          then LocErr.UnderspecifiedWithinAnchor else LocErr.NoStrategy) :=
  no_strategy_vs_underspecified.1 (fun _ => 1)
    [("closestId", "x"), ("foo", "y")] none
    (by intro cid _; simp) (by decide)

/-- C6 counterexample: with `classes` consisting of a bare comma (every
comma-separated entry empty), the effective tag being the wildcard and a
`closestId` anchor active, the CSS last-resort descriptor is empty, yet the
rule produces no strategy at all — it does not fall back to the "any
descendant of scope" strategy the claim states — and whole-mapping resolution
consequently fails with `NoStrategy`. -/
theorem css_rule_empty_descriptor_counterexample :
    cssDescriptor "*" none (some ",") = "" ∧
    cssFallbackRule (anchorLoc "a") true "*" none (some ",") = none ∧
    buildPlaywrightLocator (fun _ => 1) [("closestId", "a"), ("classes", ",")]
      none = Except.error LocErr.NoStrategy := by decide

/-- C6 amended: in the CSS last-resort rule, an empty descriptor produces no
strategy regardless of whether an anchor is active; and when the rule's entry
guard holds (effective tag not the wildcard, or `name`/`classes` truthy), a
bare-wildcard descriptor falls back to the "any descendant of scope" strategy
when an anchor is active and produces no strategy when none is. -/
theorem css_rule_wildcard_and_empty (base : Loc) (anchored : Bool)
    (tag : String) (nameAttr classes : Option String) :
    (cssDescriptor tag nameAttr classes = "" →
      cssFallbackRule base anchored tag nameAttr classes = none) ∧
    ((tag ≠ "*" ∨ nameAttr.isSome ∨ classes.isSome) →
      cssDescriptor tag nameAttr classes = "*" →
      cssFallbackRule base anchored tag nameAttr classes =
        (if anchored then some (Loc.css base "*") else none)) := by
  constructor
  · intro h
    rw [cssFallbackRule]
    split
    · simp [h]
    · rfl
  · intro hg h
    rw [cssFallbackRule, if_pos hg]
    cases anchored <;> simp [h]

/-- C6 amended witness: at the counterexample's concrete input the descriptor
is empty and the rule yields no strategy even though the anchor is active. -/
theorem css_rule_wildcard_and_empty_witness :
    cssFallbackRule (anchorLoc "a") true "*" none (some ",") = none :=
  (css_rule_wildcard_and_empty (anchorLoc "a") true "*" none (some ",")).1
    (by decide)

/-- C8: when `text` is truthy, none of `id`, `data-testid`, `data-cy`,
`data-qa`, `role`, `aria-label` is, the effective tag is not the wildcard
(and the anchor, when requested, exists): resolution yields the tag-scoped
text filter when its count is positive; when that count is zero it falls back
to the untagged text lookup within the same scope; and when that fallback
locator also counts zero the `POST /click/custom` handler answers 404
(`ElementNotFound`), not a resolution-engine error status. -/
theorem text_fallback (count : Loc → Nat) (m : Attrs) (bodyTag : Option String)
    (txt : String)
    (htext : getT m "text" = some txt)
    (hid : getT m "id" = none) (htid : getT m "data-testid" = none)
    (hcy : getT m "data-cy" = none) (hqa : getT m "data-qa" = none)
    (hrole : getT m "role" = none) (hlabel : getT m "aria-label" = none)
    (htag : effTag m bodyTag ≠ "*")
    (hanchor : ∀ cid, getT m "closestId" = some cid → count (anchorLoc cid) ≠ 0) :
    (count (Loc.filterHasText (Loc.css (scopeLoc m) (effTag m bodyTag)) txt) > 0 →
      buildPlaywrightLocator count m bodyTag =
        Except.ok
          (Loc.filterHasText (Loc.css (scopeLoc m) (effTag m bodyTag)) txt)) ∧
    (count (Loc.filterHasText (Loc.css (scopeLoc m) (effTag m bodyTag)) txt) = 0 →
      buildPlaywrightLocator count m bodyTag =
        Except.ok (Loc.byText (scopeLoc m) txt)) ∧
    (∀ (cr : Loc → ClickRes) (nie : Bool) (cs : String),
      cs ≠ "" → parseCustomSelector cs = m →
      count (Loc.filterHasText (Loc.css (scopeLoc m) (effTag m bodyTag)) txt) = 0 →
      count (Loc.byText (scopeLoc m) txt) = 0 →
      clickCustomHandler ⟨true, count, cr⟩ nie (some cs) bodyTag = 404) := by
  cases hc : getT m "closestId" with
  | none =>
    have e1 : scopeLoc m = Loc.page := by simp [scopeLoc, hc]
    rw [e1]
    refine ⟨?_, ?_, ?_⟩
    · intro hpos
      simp [buildPlaywrightLocator, ruleStrategy, hc, hid, htid, hcy, hqa,
        hrole, hlabel, htext, htag, hpos]
    · intro hzero
      simp [buildPlaywrightLocator, ruleStrategy, hc, hid, htid, hcy, hqa,
        hrole, hlabel, htext, htag, hzero]
    · intro cr nie cs hcs hparse hzero hzero2
      simp [clickCustomHandler, hcs, performPreClickWaits, hparse,
        buildPlaywrightLocator, ruleStrategy, hc, hid, htid, hcy, hqa,
        hrole, hlabel, htext, htag, hzero, hzero2]
  | some cid =>
    have hnz := hanchor cid hc
    have e1 : scopeLoc m = anchorLoc cid := by simp [scopeLoc, hc]
    rw [e1]
    refine ⟨?_, ?_, ?_⟩
    · intro hpos
      simp [buildPlaywrightLocator, ruleStrategy, hc, hnz, hid, htid, hcy,
        hqa, hrole, hlabel, htext, htag, hpos]
    · intro hzero
      simp [buildPlaywrightLocator, ruleStrategy, hc, hnz, hid, htid, hcy,
        hqa, hrole, hlabel, htext, htag, hzero]
    · intro cr nie cs hcs hparse hzero hzero2
      simp [clickCustomHandler, hcs, performPreClickWaits, hparse,
        buildPlaywrightLocator, ruleStrategy, hc, hnz, hid, htid, hcy, hqa,
        hrole, hlabel, htext, htag, hzero, hzero2]

/-- C8 witness: a concrete request `div;closestId=a;text=hi` against a page
where only the anchor `#a` exists: the tag-scoped text filter counts zero,
the untagged fallback counts zero, and the handler answers 404. -/
theorem text_fallback_witness :
    clickCustomHandler
      ⟨true, fun l => if l = anchorLoc "a" then 1 else 0, fun _ => ClickRes.ok⟩
      false (some "div;closestId=a;text=hi") none = 404 :=
  (text_fallback (fun l => if l = anchorLoc "a" then 1 else 0)
    (parseCustomSelector "div;closestId=a;text=hi") none "hi"
    (by decide) (by decide) (by decide) (by decide) (by decide) (by decide)
    (by decide) (by decide)
    (by
      intro cid hcid
      have h2 : getT (parseCustomSelector "div;closestId=a;text=hi")
          "closestId" = some "a" := by decide
      rw [h2] at hcid
      injection hcid with h3
      subst h3
      decide)).2.2
    (fun _ => ClickRes.ok) false "div;closestId=a;text=hi"
    (by decide) rfl (by decide) (by decide)

/-- C3 counterexample: the claim fails in two ways.  First, the pair of
mappings `[data-testid=x]` and `[data-testid=x, tagFromSelector=div]` agree
on every recognized key yet resolve to different strategies (the
`tagFromSelector` segment is consulted as the effective tag).  Second, the
pair `[closestId=a]` and `[closestId=a, foo=y]` also agree on every
recognized key yet fail with different errors (`UnderspecifiedWithinAnchor`
versus `NoStrategy`): the unrecognized key `foo` is counted by the
only-anchor test. -/
theorem unknown_keys_influence_counterexample :
    (recognizedKeys.all (fun k =>
      getAttr [("data-testid", "x")] k ==
        getAttr [("data-testid", "x"), ("tagFromSelector", "div")] k)) = true ∧
    buildPlaywrightLocator (fun _ => 1) [("data-testid", "x")] none ≠
      buildPlaywrightLocator (fun _ => 1)
        [("data-testid", "x"), ("tagFromSelector", "div")] none ∧
    (recognizedKeys.all (fun k =>
      getAttr [("closestId", "a")] k ==
        getAttr [("closestId", "a"), ("foo", "y")] k)) = true ∧
    buildPlaywrightLocator (fun _ => 1) [("closestId", "a")] none =
      Except.error LocErr.UnderspecifiedWithinAnchor ∧
    buildPlaywrightLocator (fun _ => 1) [("closestId", "a"), ("foo", "y")]
      none = Except.error LocErr.NoStrategy := by decide

/-- C3 amended: mappings that agree on every recognized key AND on the
`tagFromSelector` tag hint produce the same strategy when resolution
succeeds, succeed or fail together, and fail with `AnchorNotFound` together;
unrecognized keys can still flip a failure between
`UnderspecifiedWithinAnchor` and `NoStrategy` (and the `tagFromSelector`
segment, although outside the recognized set, is the tag hint and does
influence resolution). -/
theorem unknown_keys_inert (count : Loc → Nat) (m1 m2 : Attrs)
    (bodyTag : Option String)
    (hkeys : ∀ k, k ∈ recognizedKeys → getAttr m1 k = getAttr m2 k)
    (htag : getAttr m1 "tagFromSelector" = getAttr m2 "tagFromSelector") :
    (buildPlaywrightLocator count m1 bodyTag).toOption =
      (buildPlaywrightLocator count m2 bodyTag).toOption ∧
    (∀ cid, buildPlaywrightLocator count m1 bodyTag =
        Except.error (LocErr.AnchorNotFound cid) ↔
      buildPlaywrightLocator count m2 bodyTag =
        Except.error (LocErr.AnchorNotFound cid)) := by
  have g : ∀ k, k ∈ recognizedKeys → getT m1 k = getT m2 k := by
    intro k hk
    rw [getT, getT, hkeys k hk]
  have gtag : getT m1 "tagFromSelector" = getT m2 "tagFromSelector" := by
    rw [getT, getT, htag]
  have heff : effTag m1 bodyTag = effTag m2 bodyTag := by
    rw [effTag.eq_def, effTag.eq_def, gtag]
  have hcl := g "closestId" (by decide)
  have hid := g "id" (by decide)
  have htd := g "data-testid" (by decide)
  have hcy := g "data-cy" (by decide)
  have hqa := g "data-qa" (by decide)
  have hrl := g "role" (by decide)
  have htx := g "text" (by decide)
  have hal := g "aria-label" (by decide)
  have hnm := g "name" (by decide)
  have hcs := g "classes" (by decide)
  simp only [buildPlaywrightLocator]
  rw [hcl, hid, htd, hcy, hqa, hrl, htx, hal, hnm, hcs, heff]
  cases hc2 : getT m2 "closestId" with
  | none =>
    exact ⟨rfl, fun _ => Iff.rfl⟩
  | some cid =>
    by_cases hz : count (anchorLoc cid) = 0
    · simp [hz]
    · simp only [if_neg hz]
      cases hr : ruleStrategy count (anchorLoc cid) true (effTag m2 bodyTag)
          (getT m2 "id") (getT m2 "data-testid") (getT m2 "data-cy")
          (getT m2 "data-qa") (getT m2 "role") (getT m2 "text")
          (getT m2 "aria-label") (getT m2 "name") (getT m2 "classes") with
      | some l => simp
      | none =>
        by_cases hk1 : keysExceptAnchor m1 = [] <;>
          by_cases hk2 : keysExceptAnchor m2 = [] <;>
            simp [hk1, hk2, Except.toOption]

/-- C3 amended witness: the two mappings of the error-kind counterexample
satisfy the amended statement — their outcomes agree up to the
`UnderspecifiedWithinAnchor`/`NoStrategy` distinction. -/
theorem unknown_keys_inert_witness :
    (buildPlaywrightLocator (fun _ => 1) [("closestId", "a")] none).toOption =
      (buildPlaywrightLocator (fun _ => 1) [("closestId", "a"), ("foo", "y")]
        none).toOption :=
  (unknown_keys_inert (fun _ => 1) [("closestId", "a")]
    [("closestId", "a"), ("foo", "y")] none
    (by decide) (by decide)).1
